import Mathlib

set_option maxRecDepth 8192

/-!
Shallow embedding of the declarative reconciliation and readiness-probing
subsystem of the repository (Ansible modules `cassandra_connection.py`,
`cassandra_keyspace.py`, `cassandra_table.py` under `src/library/`).

Conventions of the embedding:
* An out-of-process `Popen` invocation of `cqlsh` is modelled by a `Store`:
  a function from the argv list to a `ProcResult` (stdout, stderr,
  returncode), exactly the three values `process.communicate()` plus
  `process.returncode` give back to the Python code.
* Each module-level Python function becomes a Lean function that returns its
  result (or the exception it raises, as `Except PyError`) together with the
  list of argv vectors it handed to `Popen`, so that theorems can count and
  inspect the calls made against the store.
* `module.exit_json` / `module.fail_json` terminate the module; they are the
  constructors of `ModuleResult`.  An exception that escapes `main` without a
  surrounding `try` is the `uncaught` constructor.
* Python `int` is `Int`; truthiness of a Python list-or-None option is
  explicit (`none` and `some []` are falsy).
-/

/-- Result of one `Popen(...).communicate()` round trip: captured stdout,
captured stderr, and the process return code. -/
structure ProcResult where
  out : String
  err : String
  returncode : Int
deriving DecidableEq, Repr

/-- The external store: maps the argv vector handed to `Popen` to the
process result.  A pure function because every claim is settled against a
fixed (possibly input-dependent) behaviour of the store. -/
abbrev Store := List String → ProcResult

/-- Python exception values that arise in these modules.  All constructors
model subclasses of `Exception`, so all are caught by `except Exception`. -/
inductive PyError where
  | exc (msg : String)
  | typeErr (msg : String)
  | attrErr (msg : String)
  | keyErr (msg : String)
  | valErr (msg : String)
  | malformed (msg : String)
  | nameErr (msg : String)
deriving DecidableEq, Repr

/-- `str(exception)`: the message the exception was built with. -/
def PyError.str : PyError → String
  | .exc m => m
  | .typeErr m => m
  | .attrErr m => m
  | .keyErr m => m
  | .valErr m => m
  | .malformed m => m
  | .nameErr m => m

/-- A Python value as it occurs in these modules: a string or an int
(dictionary values parsed from describe output, and arguments passed
positionally to a dynamically-checked call). -/
inductive PyVal where
  | str (s : String)
  | int (n : Int)
deriving DecidableEq, Repr

/-- `str(v)` for the two value shapes we model. -/
def PyVal.toStr : PyVal → String
  | .str s => s
  | .int n => toString n

/-- The message `"Bad returncode: {}; Error: {}".format(returncode, err)`
raised by every helper when the subprocess exits non-zero. -/
def badReturncode (rc : Int) (err : String) : String :=
  "Bad returncode: " ++ toString rc ++ "; Error: " ++ err

/-! ## cassandra_connection.py -/

/-- `attempt_connection(host, port, cql_version)` (lines 49-55): run the
probe query `SELECT now() FROM system.local;` once; raise `Exception(err)`
on a non-zero return code, return nothing on success. -/
def attempt_connection (host : String) (port : Int) (cql_version : String)
    (store : Store) : Except PyError Unit × List (List String) :=
  let argv := ["sudo", "cqlsh", host, toString port, "--cqlversion", cql_version,
               "-e", "SELECT now() FROM system.local;"]
  let r := store argv
  (if r.returncode ≠ 0 then .error (.exc r.err) else .ok (), [argv])

/-- Terminal result of the probe module's `main`: `exit_json(changed=False)`
on a successful attempt, or `fail_json(msg=list(errors_set))` once the
budget is exhausted.  An element of the error list is the exception raised
on one failed attempt; Python's `set.add` stores exception *objects*, which
hash and compare by identity, so each failed attempt contributes its own
element even when messages repeat.  We render an exception object as the
pair (attempt index at which it was raised, its message); the attempt index
plays the role of the object identity. -/
inductive ProbeOutcome where
  | exitJson (changed : Bool)
  | failJson (errors : List (Nat × String))
deriving DecidableEq, Repr

/-- The observable behaviour of one run of the probe module: how many times
`attempt_connection` was called, how many times `time.sleep(1)` ran, and the
terminal `exit_json`/`fail_json`. -/
structure ProbeResult where
  attempts : Nat
  sleeps : Nat
  outcome : ProbeOutcome
deriving DecidableEq, Repr

/-- The `while count < retries` loop of `cassandra_connection.main`
(lines 72-84), recursing on `retries - count`.  `probe n` is the behaviour of
the store on the (n+1)-st probe query: `none` for a zero return code,
`some msg` for a failure whose stderr is `msg` (so `attempt_connection`
raises `Exception(msg)`).  On failure the loop adds the fresh exception
object to `errors_set`, sleeps one second, and increments `count`; on
success it exits with `changed=False`; when the condition `count < retries`
fails, the `while`/`else` clause fails with the collected error list. -/
def probeLoop (probe : Nat → Option String) :
    Nat → Nat → Nat → List (Nat × String) → ProbeResult
  | 0, attempts, sleeps, errors =>
    { attempts := attempts, sleeps := sleeps, outcome := .failJson errors }
  | remaining + 1, attempts, sleeps, errors =>
    match probe attempts with
    | none =>
        { attempts := attempts + 1, sleeps := sleeps,
          outcome := .exitJson false }
    | some msg =>
        probeLoop probe remaining (attempts + 1) (sleeps + 1)
          (errors ++ [(attempts, msg)])

/-- `cassandra_connection.main` after parameter parsing: run the retry loop
with `count = 0` and an empty error set. -/
def connectionMain (retries : Nat) (probe : Nat → Option String) : ProbeResult :=
  probeLoop probe retries 0 0 []

/-- C3 counterexample: with `retries = 3` and a store failing every attempt
with stderr "connection refused", the module makes 3 attempts but sleeps 3
times (not 2: the loop sleeps after every failed attempt, including the
last), and the aggregated error list holds 3 distinct exception objects
(not a one-element set: exceptions are deduplicated by object identity,
never by message). -/
theorem probe_exhausted_three_sleeps_three_errors :
    let r := connectionMain 3 (fun _ => some "connection refused")
    r.attempts = 3 ∧ r.sleeps = 3 ∧ r.sleeps ≠ 2 ∧
      r.outcome = .failJson
        [(0, "connection refused"), (1, "connection refused"),
         (2, "connection refused")] ∧
      ∀ errors, r.outcome = .failJson errors → errors.length ≠ 1 := by
  refine ⟨rfl, rfl, by decide, rfl, ?_⟩
  intro errors h
  cases h
  decide

/-- C3 amended: for every store that fails each of the first three attempts
with stderr "connection refused", the probe with a budget of 3 makes exactly
3 attempts, sleeps exactly 3 times (once after every failed attempt,
including the last), and fails with an aggregated error list of 3 exception
objects, each carrying the message "connection refused" — equal messages are
not merged because Python sets compare exception objects by identity. -/
theorem probe_exhausted_amended (probe : Nat → Option String)
    (h : ∀ n, n < 3 → probe n = some "connection refused") :
    connectionMain 3 probe =
      { attempts := 3, sleeps := 3,
        outcome := .failJson
          [(0, "connection refused"), (1, "connection refused"),
           (2, "connection refused")] } := by
  unfold connectionMain probeLoop
  rw [h 0 (by decide)]
  unfold probeLoop
  rw [h 1 (by decide)]
  unfold probeLoop
  rw [h 2 (by decide)]
  rfl

/-- Witness for `probe_exhausted_amended` at the constant failing store. -/
theorem probe_exhausted_amended_witness :
    connectionMain 3 (fun _ => some "connection refused") =
      { attempts := 3, sleeps := 3,
        outcome := .failJson
          [(0, "connection refused"), (1, "connection refused"),
           (2, "connection refused")] } :=
  probe_exhausted_amended (fun _ => some "connection refused")
    (fun _ _ => rfl)

/-- C7: for every retry budget of at least 2 and every store whose probe
query fails on the first attempt (with any message) and succeeds on the
second, the probe returns success (`exit_json(changed=False)`, so no
mutation is reported) after exactly 2 attempts, sleeping only once — the
loop returns immediately on the successful attempt. -/
theorem probe_fail_once_then_ready (retries : Nat) (probe : Nat → Option String)
    (msg : String) (hretries : 2 ≤ retries)
    (h0 : probe 0 = some msg) (h1 : probe 1 = none) :
    connectionMain retries probe =
      { attempts := 2, sleeps := 1, outcome := .exitJson false } := by
  obtain ⟨k, rfl⟩ := Nat.exists_eq_add_of_le hretries
  unfold connectionMain
  have hk : 2 + k = k + 1 + 1 := by omega
  rw [hk]
  unfold probeLoop
  rw [h0]
  unfold probeLoop
  rw [h1]

/-- Witness for `probe_fail_once_then_ready`: budget 3, store failing once
with "no host available" then succeeding. -/
theorem probe_fail_once_then_ready_witness :
    connectionMain 3 (fun n => if n = 0 then some "no host available" else none) =
      { attempts := 2, sleeps := 1, outcome := .exitJson false } :=
  probe_fail_once_then_ready 3
    (fun n => if n = 0 then some "no host available" else none)
    "no host available" (by decide) rfl rfl

/-- C9: with a retry budget of 0 the loop condition `count < retries` fails
immediately: for every store behaviour the module makes zero attempts,
sleeps zero times, and fails with an empty error list. -/
theorem probe_zero_budget (probe : Nat → Option String) :
    connectionMain 0 probe =
      { attempts := 0, sleeps := 0, outcome := .failJson [] } :=
  rfl

/-! ## Text parsing helpers shared by the keyspace and table modules

`out.split()` in Python splits on runs of whitespace and drops empty
tokens; `re.search("\x7b(.*?)\x7d", out)` finds the leftmost-then-shortest
match of a brace-delimited group in which `.` matches any character except a
newline; `ast.literal_eval` applied to the brace group of a `DESCRIBE
KEYSPACE` output parses a flat dictionary literal of quoted keys mapped to
quoted strings or integer literals.  The definitions below model exactly
these behaviours over `List Char`. -/

def lbraceChar : Char := Char.ofNat 123

def rbraceChar : Char := Char.ofNat 125

def squoteChar : Char := Char.ofNat 39

def dquoteChar : Char := Char.ofNat 34

/-- Accumulating splitter behind `pySplit`: `acc` holds the characters of
the token being read, in reverse. -/
def pySplitAux : List Char → List Char → List String
  | [], acc => if acc = [] then [] else [String.mk acc.reverse]
  | c :: cs, acc =>
    if c.isWhitespace then
      if acc = [] then pySplitAux cs []
      else String.mk acc.reverse :: pySplitAux cs []
    else pySplitAux cs (c :: acc)

/-- Python `str.split()` with no argument: split on whitespace runs,
dropping empty tokens. -/
def pySplit (s : String) : List String :=
  pySplitAux s.data []

/-- Attempt of the regex engine to complete `(.*?)\x7d` right after an
opening brace: consume the shortest run of non-newline characters up to a
closing brace; fail if a newline (which `.` cannot match) or the end of the
text arrives first. -/
def braceContentFrom : List Char → Option (List Char)
  | [] => none
  | c :: rest =>
    if c = rbraceChar then some []
    else if c = Char.ofNat 10 then none
    else (braceContentFrom rest).map (fun l => c :: l)

/-- `re.search` for the brace-group pattern: try each start position from
the left; a match starts at an opening brace whose group completes, and a
failed start falls through to the next position. -/
def findBraceGroupAux : List Char → Option (List Char)
  | [] => none
  | c :: rest =>
    if c = lbraceChar then
      match braceContentFrom rest with
      | some content => some content
      | none => findBraceGroupAux rest
    else findBraceGroupAux rest

/-- `re.search("\x7b(.*?)\x7d", s)` returning group 1, or `none` when the
pattern does not occur (in Python the subsequent `.group(1)` then raises
`AttributeError` on `None`). -/
def findBraceGroup (s : String) : Option (List Char) :=
  findBraceGroupAux s.data

/-- Drop leading ASCII whitespace, as Python's literal parser does between
tokens. -/
def skipWsL : List Char → List Char
  | [] => []
  | c :: cs => if c.isWhitespace then skipWsL cs else c :: cs

/-- Scan the body of a quoted string up to the closing quote `q`; the
describe output quoted tokens contain no escape sequences, so none are
modelled. -/
def scanQuoted (q : Char) : List Char → Option (List Char × List Char)
  | [] => none
  | c :: cs =>
    if c = q then some ([], cs)
    else (scanQuoted q cs).map (fun p => (c :: p.1, p.2))

/-- Longest leading run of decimal digits. -/
def scanDigits : List Char → List Char × List Char
  | [] => ([], [])
  | c :: cs =>
    if c.isDigit then
      let p := scanDigits cs
      (c :: p.1, p.2)
    else ([], c :: cs)

/-- Value of a non-empty digit run. -/
def digitsToNat (ds : List Char) : Nat :=
  ds.foldl (fun a c => a * 10 + (c.toNat - 48)) 0

/-- One literal value inside the dictionary: a single- or double-quoted
string, or an optionally negated integer literal. -/
def parseLitValue (cs : List Char) : Option (PyVal × List Char) :=
  match cs with
  | [] => none
  | c :: rest =>
    if c = squoteChar ∨ c = dquoteChar then
      (scanQuoted c rest).map (fun p => (.str (String.mk p.1), p.2))
    else if c = Char.ofNat 45 then
      match scanDigits rest with
      | ([], _) => none
      | (ds, r) => some (.int (-(digitsToNat ds : Int)), r)
    else if c.isDigit then
      let p := scanDigits (c :: rest)
      some (.int (digitsToNat p.1), p.2)
    else none

/-- One `key: value` pair: a quoted key, a colon, a literal value. -/
def parseEntry (cs : List Char) : Option ((String × PyVal) × List Char) :=
  match skipWsL cs with
  | [] => none
  | q :: rest =>
    if q = squoteChar ∨ q = dquoteChar then
      match scanQuoted q rest with
      | none => none
      | some (key, rest1) =>
        match skipWsL rest1 with
        | c :: rest2 =>
          if c = Char.ofNat 58 then
            (parseLitValue (skipWsL rest2)).map
              (fun p => ((String.mk key, p.1), p.2))
          else none
        | [] => none
    else none

/-- Comma-separated entries until the end of the brace group; a trailing
comma is tolerated, as in a Python dictionary literal.  Fuelled by the
length of the text (each entry consumes at least one character). -/
def parseEntriesAux : Nat → List Char → Option (List (String × PyVal))
  | 0, _ => none
  | fuel + 1, cs =>
    match parseEntry cs with
    | none => none
    | some (e, rest) =>
      match skipWsL rest with
      | [] => some [e]
      | c :: rest2 =>
        if c = Char.ofNat 44 then
          match skipWsL rest2 with
          | [] => some [e]
          | _ => (parseEntriesAux fuel rest2).map (fun l => e :: l)
        else none

/-- `ast.literal_eval("\x7b" + content + "\x7d")` for the flat dictionary
literals that `DESCRIBE KEYSPACE` emits: quoted keys mapped to quoted
strings or integers.  `none` models the `ValueError`/`SyntaxError` the
literal evaluator raises on malformed input. -/
def parseFlatDict (content : List Char) : Option (List (String × PyVal)) :=
  if skipWsL content = [] then some []
  else parseEntriesAux (content.length + 1) content

/-- Python dictionary indexing after literal construction: for duplicate
keys the later binding wins. -/
def dictLookup (d : List (String × PyVal)) (k : String) : Option PyVal :=
  d.foldl (fun acc e => if e.1 = k then some e.2 else acc) none

/-- Python `int(s)` on a string: strip whitespace at both ends, allow one
sign, then require a non-empty all-digit run. -/
def pyIntOfString (s : String) : Option Int :=
  let cs := skipWsL ((skipWsL s.data.reverse).reverse)
  match cs with
  | [] => none
  | c :: rest =>
    if c = Char.ofNat 45 then
      if rest ≠ [] ∧ rest.all Char.isDigit then some (-(digitsToNat rest : Int))
      else none
    else if c = Char.ofNat 43 then
      if rest ≠ [] ∧ rest.all Char.isDigit then some (digitsToNat rest)
      else none
    else
      if (c :: rest).all Char.isDigit then some (digitsToNat (c :: rest))
      else none

/-- Python `int(v)` on the two value shapes: an int is returned unchanged, a
string is parsed (raising `ValueError`, i.e. `none`, when malformed). -/
def pyInt : PyVal → Option Int
  | .int n => some n
  | .str s => pyIntOfString s

/-! ## cassandra_keyspace.py -/

/-- The template `CREATE_CMD` (lines 56-57) applied to its two arguments, as
`CREATE_CMD.format(keyspace, replication_factor)` does. -/
def CREATE_CMD_fmt (keyspace rf : String) : String :=
  "CREATE KEYSPACE " ++ keyspace ++
    " WITH replication = \x7b'class':'SimpleStrategy', 'replication_factor' : " ++
    rf ++ "\x7d;"

/-- The template `ALTER_CMD` (lines 58-59) applied to its two arguments. -/
def ALTER_CMD_fmt (keyspace rf : String) : String :=
  "ALTER KEYSPACE " ++ keyspace ++
    " WITH REPLICATION = \x7b'class': 'SimpleStrategy', 'replication_factor': " ++
    rf ++ "\x7d;"

/-- `keyspace_already_exists` (lines 69-79): run `DESC KEYSPACES;` (this is
the one helper whose argv carries no `sudo` prefix; the two `print` calls
have no bearing on the result), raise on a non-zero return code, and report
whether the keyspace name occurs among the whitespace tokens of stdout. -/
def keyspace_already_exists (keyspace host : String) (port : Int)
    (cql_version : String) (store : Store) :
    Except PyError Bool × List (List String) :=
  let argv := ["cqlsh", host, toString port, "--cqlversion", cql_version,
               "-e", "DESC KEYSPACES;"]
  let r := store argv
  (if r.returncode ≠ 0 then .error (.exc (badReturncode r.returncode r.err))
   else .ok ((pySplit r.out).contains keyspace), [argv])

/-- `create_keyspace` (lines 82-89): issue the formatted CREATE statement,
raising on a non-zero return code. -/
def create_keyspace (keyspace host : String) (port : Int)
    (cql_version : String) (replication_factor : Int) (store : Store) :
    Except PyError Unit × List (List String) :=
  let cmd := CREATE_CMD_fmt keyspace (toString replication_factor)
  let argv := ["sudo", "cqlsh", host, toString port, "--cqlversion",
               cql_version, "-e", cmd]
  let r := store argv
  (if r.returncode ≠ 0 then .error (.exc (badReturncode r.returncode r.err))
   else .ok (), [argv])

/-- The pure tail of `get_current_replication_factor` (lines 100-102),
applied to the stdout of the describe query: find the first brace group
(`.group(1)` on a failed search raises `AttributeError`), evaluate it as a
flat dictionary literal, index it at `"replication_factor"` (`KeyError`
when absent), and convert the value with `int` (`ValueError` when the value
is a malformed string). -/
def parse_replication_factor (out : String) : Except PyError Int :=
  match findBraceGroup out with
  | none => .error (.attrErr "NoneType object has no attribute group")
  | some content =>
    match parseFlatDict content with
    | none => .error (.malformed "malformed node or string")
    | some d =>
      match dictLookup d "replication_factor" with
      | none => .error (.keyErr "replication_factor")
      | some v =>
        match pyInt v with
        | none => .error (.valErr "invalid literal for int() with base 10")
        | some n => .ok n

/-- `get_current_replication_factor` (lines 92-102): run
`Describe keyspace <name>;`, raise on a non-zero return code, then parse the
replication factor out of stdout. -/
def get_current_replication_factor (keyspace host : String) (port : Int)
    (cql_version : String) (store : Store) :
    Except PyError Int × List (List String) :=
  let argv := ["sudo", "cqlsh", host, toString port, "--cqlversion",
               cql_version, "-e", "Describe keyspace " ++ keyspace ++ ";"]
  let r := store argv
  (if r.returncode ≠ 0 then .error (.exc (badReturncode r.returncode r.err))
   else parse_replication_factor r.out, [argv])

/-- `update_keyspace_replication` (lines 105-113).  Python checks the arity
of a call dynamically, and `main` (line 159) invokes this five-parameter
function with only three positional arguments, so the function is modelled
over an explicit argument list: a list of any length other than five is
answered by the `TypeError` Python raises before the body runs (hence with
no store call). -/
def update_keyspace_replication (args : List PyVal) (store : Store) :
    Except PyError Unit × List (List String) :=
  match args with
  | [keyspace, host, port, cql_version, replication_factor] =>
    let cmd := ALTER_CMD_fmt keyspace.toStr replication_factor.toStr
    let argv := ["sudo", "cqlsh", host.toStr, port.toStr, "--cqlversion",
                 cql_version.toStr, "-e", cmd]
    let r := store argv
    (if r.returncode ≠ 0 then .error (.exc (badReturncode r.returncode r.err))
     else .ok (), [argv])
  | _ =>
    (.error (.typeErr
      "update_keyspace_replication() missing 2 required positional arguments"),
     [])

/-- `drop_keyspace` (lines 116-123): issue `DROP KEYSPACE <name>;`, raising
on a non-zero return code.  `main` never reaches this function (line 179
invokes the unbound name `delete_keyspace` instead). -/
def drop_keyspace (keyspace host : String) (port : Int)
    (cql_version : String) (store : Store) :
    Except PyError Unit × List (List String) :=
  let cmd := "DROP KEYSPACE " ++ keyspace ++ ";"
  let argv := ["sudo", "cqlsh", host, toString port, "--cqlversion",
               cql_version, "-e", cmd]
  let r := store argv
  (if r.returncode ≠ 0 then .error (.exc (badReturncode r.returncode r.err))
   else .ok (), [argv])

/-- The names bound at the top level of `cassandra_keyspace.py` (its five
`def` statements plus `main`); the wildcard import of
`ansible.module_utils.basic` binds no name of the form `delete_keyspace`
either. -/
def keyspaceModuleFunctionNames : List String :=
  ["keyspace_already_exists", "create_keyspace",
   "get_current_replication_factor", "update_keyspace_replication",
   "drop_keyspace", "main"]

/-- The function name the absent-state branch of `main` invokes at
line 179. -/
def keyspaceDropPathCalledName : String := "delete_keyspace"

/-- Parameters of the keyspace module, with the defaults of its
`argument_spec` (lines 127-138). -/
structure KeyspaceParams where
  name : String
  host : String := "127.0.0.1"
  port : Int := 9042
  cql_version : String := "3.4.4"
  replication_factor : Int := 1
  state : String := "present"
deriving DecidableEq, Repr

/-- Column of the table module: a Python dictionary that should carry the
keys `name` and `type`; either may be absent. -/
structure Column where
  name : Option String
  type : Option String
deriving DecidableEq, Repr

/-- Terminal result of a reconciler module run: `exit_json(changed=...)`,
`fail_json(msg=<string>)`, `fail_json(msg=<list of column errors>)` (the
table module's validation failure passes the error list itself), or a
Python exception escaping `main` with no enclosing `try` (only possible for
`get_current_replication_factor`, line 155). -/
inductive ModuleResult where
  | exitJson (changed : Bool)
  | failJson (msg : String)
  | failJsonCols (msg : List (String × Column))
  | uncaught (err : PyError)
deriving DecidableEq, Repr

/-- `cassandra_keyspace.main` (lines 126-186) after `AnsibleModule` has
parsed the parameters (a `state` outside the declared choices is rejected
by `AnsibleModule` itself before the body runs, modelled by the leading
test).  Fidelity notes embedded from the source:
* line 159 calls `update_keyspace_replication(keyspace, host,
  replication_factor)` — three positional arguments for a five-parameter
  function, so the call raises `TypeError` inside the `try` and the branch
  falls to `fail_json("Error updating keyspace: ...")`;
* line 179 calls `delete_keyspace(...)`, a name bound nowhere in the
  module, so the branch raises `NameError` inside the `try` and falls to
  `fail_json("Error deleting keyspace: ...")`;
* line 155 calls `get_current_replication_factor` outside any `try`, so an
  exception there escapes `main` uncaught. -/
def keyspaceMain (p : KeyspaceParams) (store : Store) :
    ModuleResult × List (List String) :=
  if p.state ≠ "present" ∧ p.state ≠ "absent" then
    (.failJson "value of state must be one of: present, absent", [])
  else
    match keyspace_already_exists p.name p.host p.port p.cql_version store with
    | (.error e, t0) => (.failJson e.str, t0)
    | (.ok exists_, t0) =>
      if p.state = "present" then
        if exists_ then
          match get_current_replication_factor p.name p.host p.port
              p.cql_version store with
          | (.error e, t1) => (.uncaught e, t0 ++ t1)
          | (.ok current_rep_factor, t1) =>
            if current_rep_factor ≠ p.replication_factor then
              match update_keyspace_replication
                  [.str p.name, .str p.host, .int p.replication_factor]
                  store with
              | (.error e, t2) =>
                (.failJson ("Error updating keyspace: " ++ e.str),
                 t0 ++ t1 ++ t2)
              | (.ok _, t2) => (.exitJson true, t0 ++ t1 ++ t2)
            else (.exitJson false, t0 ++ t1)
        else
          match create_keyspace p.name p.host p.port p.cql_version
              p.replication_factor store with
          | (.error e, t2) =>
            (.failJson ("Error creating keyspace: " ++ e.str), t0 ++ t2)
          | (.ok _, t2) => (.exitJson true, t0 ++ t2)
      else
        if exists_ then
          (.failJson ("Error deleting keyspace: " ++
            "name 'delete_keyspace' is not defined"), t0)
        else (.exitJson false, t0)

/-- A store in which keyspace `pluto` exists at replication factor 1:
`DESC KEYSPACES;` lists it among the keyspace tokens, `Describe keyspace
pluto;` prints its replication map, and every statement exits with return
code 0. -/
def storePlutoRf1 : Store := fun argv =>
  match argv.getLast? with
  | some "DESC KEYSPACES;" =>
      { out := "system pluto system_auth", err := "", returncode := 0 }
  | some "Describe keyspace pluto;" =>
      { out := "CREATE KEYSPACE pluto WITH replication = \x7b'class': 'org.apache.cassandra.locator.SimpleStrategy', 'replication_factor': '1'\x7d AND durable_writes = true;",
        err := "", returncode := 0 }
  | _ => { out := "", err := "", returncode := 0 }

/-- The statements of a call trace whose text begins with `ALTER KEYSPACE`
(the statement text is the final argv entry, after `-e`). -/
def alterStatements (trace : List (List String)) : List String :=
  (trace.filterMap List.getLast?).filter
    (fun cmd => cmd.data.take 14 == ("ALTER KEYSPACE").data)

/-- C1 on the code as written: against a store holding keyspace `pluto` at
replication factor 1, a desired spec with replication factor 3 and
state `present` reaches line 159, whose call passes three positional
arguments to the five-parameter `update_keyspace_replication`; the
`TypeError` is caught and the module fails, so the run issues zero ALTER
statements and never reports `changed=true` — the trace holds only the two
read queries. -/
theorem keyspace_drift_path_eval :
    keyspaceMain { name := "pluto", replication_factor := 3 } storePlutoRf1 =
      (.failJson
        "Error updating keyspace: update_keyspace_replication() missing 2 required positional arguments",
       [["cqlsh", "127.0.0.1", "9042", "--cqlversion", "3.4.4", "-e",
         "DESC KEYSPACES;"],
        ["sudo", "cqlsh", "127.0.0.1", "9042", "--cqlversion", "3.4.4", "-e",
         "Describe keyspace pluto;"]]) ∧
    alterStatements
      (keyspaceMain { name := "pluto", replication_factor := 3 }
        storePlutoRf1).2 = [] :=
  ⟨rfl, rfl⟩

/-- C4 on the code as written: reconciling keyspace `pluto` to state
`absent` twice against the same store (legitimate, since the first run
issues no mutating statement: its trace holds only the existence query)
fails both times through the unbound name `delete_keyspace`; in particular
the second run does not report `changed=false`. -/
theorem keyspace_reconcile_twice_absent_eval :
    (keyspaceMain { name := "pluto", state := "absent" } storePlutoRf1).1 =
      .failJson "Error deleting keyspace: name 'delete_keyspace' is not defined" ∧
    (keyspaceMain { name := "pluto", state := "absent" } storePlutoRf1).2 =
      [["cqlsh", "127.0.0.1", "9042", "--cqlversion", "3.4.4", "-e",
        "DESC KEYSPACES;"]] ∧
    (keyspaceMain { name := "pluto", state := "absent" } storePlutoRf1).1 ≠
      .exitJson false ∧
    (keyspaceMain { name := "pluto", state := "absent" } storePlutoRf1).1 ≠
      .exitJson true :=
  ⟨rfl, rfl, by decide, by decide⟩

/-- C5: the mutation routine invoked on the keyspace drop path,
`delete_keyspace` (line 179), is not among the names defined by the module;
consequently, for every parameter record with desired state `absent` and
every store against which the keyspace is observed present, `main` ends in
`fail_json` — it can never terminate in `exit_json`, in particular never
with `changed=true`. -/
theorem keyspace_absent_present_always_fails (p : KeyspaceParams)
    (store : Store) (hstate : p.state = "absent")
    (hexists :
      (keyspace_already_exists p.name p.host p.port p.cql_version store).1 =
        .ok true) :
    keyspaceDropPathCalledName ∉ keyspaceModuleFunctionNames ∧
    (keyspaceMain p store).1 =
      .failJson "Error deleting keyspace: name 'delete_keyspace' is not defined" ∧
    ∀ b, (keyspaceMain p store).1 ≠ .exitJson b := by
  have hmain : (keyspaceMain p store).1 =
      .failJson "Error deleting keyspace: name 'delete_keyspace' is not defined" := by
    unfold keyspaceMain
    rcases h : keyspace_already_exists p.name p.host p.port p.cql_version store
      with ⟨res, trace⟩
    rw [h] at hexists
    simp only at hexists
    subst hexists
    rw [hstate]
    rfl
  refine ⟨by decide, hmain, ?_⟩
  intro b hb
  rw [hmain] at hb
  cases hb

/-- Witness for `keyspace_absent_present_always_fails`: keyspace `pluto`
desired absent against the store where it exists. -/
theorem keyspace_absent_present_always_fails_witness :
    keyspaceDropPathCalledName ∉ keyspaceModuleFunctionNames ∧
    (keyspaceMain { name := "pluto", state := "absent" } storePlutoRf1).1 =
      .failJson "Error deleting keyspace: name 'delete_keyspace' is not defined" ∧
    ∀ b, (keyspaceMain { name := "pluto", state := "absent" } storePlutoRf1).1 ≠
      .exitJson b :=
  keyspace_absent_present_always_fails
    { name := "pluto", state := "absent" } storePlutoRf1 rfl rfl

/-- C8: on every describe-output text, `parse_replication_factor` works from
the first brace-delimited group located by `findBraceGroup`; when no such
group exists it fails (Python: `.group(1)` on `None` raises
`AttributeError`); when the group evaluates to a flat mapping that lacks the
key `replication_factor` it fails (Python: `KeyError`); and when the key is
present with an int-convertible value it returns that integer value. -/
theorem parse_replication_factor_spec (text : String) :
    (findBraceGroup text = none →
      parse_replication_factor text =
        .error (.attrErr "NoneType object has no attribute group")) ∧
    (∀ content d, findBraceGroup text = some content →
      parseFlatDict content = some d →
      dictLookup d "replication_factor" = none →
      parse_replication_factor text =
        .error (.keyErr "replication_factor")) ∧
    (∀ content d v n, findBraceGroup text = some content →
      parseFlatDict content = some d →
      dictLookup d "replication_factor" = some v →
      pyInt v = some n →
      parse_replication_factor text = .ok n) := by
  refine ⟨?_, ?_, ?_⟩
  · intro h
    unfold parse_replication_factor
    simp only [h]
  · intro content d h1 h2 h3
    unfold parse_replication_factor
    simp only [h1, h2, h3]
  · intro content d v n h1 h2 h3 h4
    unfold parse_replication_factor
    simp only [h1, h2, h3, h4]

/-- Witness for `parse_replication_factor_spec` at three concrete texts: one
with no brace group, one whose brace group lacks the key, and one whose
brace group carries `replication_factor` as the quoted string `'3'`. -/
theorem parse_replication_factor_spec_witness :
    parse_replication_factor "no braces here" =
      .error (.attrErr "NoneType object has no attribute group") ∧
    parse_replication_factor "x \x7b'class': 'SimpleStrategy'\x7d y" =
      .error (.keyErr "replication_factor") ∧
    parse_replication_factor
      "x \x7b'class': 'SimpleStrategy', 'replication_factor': '3'\x7d y" =
      .ok 3 :=
  ⟨(parse_replication_factor_spec "no braces here").1 rfl,
   (parse_replication_factor_spec "x \x7b'class': 'SimpleStrategy'\x7d y").2.1
     _ _ rfl rfl rfl,
   (parse_replication_factor_spec
     "x \x7b'class': 'SimpleStrategy', 'replication_factor': '3'\x7d y").2.2
     _ _ _ _ rfl rfl rfl rfl⟩

/-! ## cassandra_table.py -/

/-- `", ".join(...)`. -/
def joinComma : List String → String
  | [] => ""
  | [s] => s
  | s :: rest => s ++ ", " ++ joinComma rest

/-- `table_already_exists` (lines 103-111): run `Describe tables;` with the
`-k <keyspace>` binding, raise on a non-zero return code, and report whether
the table name occurs among the whitespace tokens of stdout. -/
def table_already_exists (keyspace table host : String) (port : Int)
    (cql_version : String) (store : Store) :
    Except PyError Bool × List (List String) :=
  let argv := ["sudo", "cqlsh", host, toString port, "--cqlversion",
               cql_version, "-k", keyspace, "-e", "Describe tables;"]
  let r := store argv
  (if r.returncode ≠ 0 then .error (.exc (badReturncode r.returncode r.err))
   else .ok ((pySplit r.out).contains table), [argv])

/-- The column renderings `"{} {}".format(col["name"], col["type"])` of the
create statement, or `none` for the `KeyError` raised if a column lacks
either key (unreachable from `main`, which validates first). -/
def renderColumns : List Column → Option (List String)
  | [] => some []
  | c :: rest =>
    match c.name, c.type with
    | some n, some t => (renderColumns rest).map (fun l => (n ++ " " ++ t) :: l)
    | _, _ => none

/-- The statement text built by `create_table` (lines 116-123): the base
`CREATE TABLE <name>(<col> <type>, ..., PRIMARY KEY (<pk>, ...))` with no
trailing semicolon, to which — only when `order_by` is truthy, i.e. neither
`None` nor the empty list — the suffix `WITH CLUSTERING ORDER BY (...);` is
appended by `cmd +=` with no separating space. -/
def buildCreateTableCmd (table : String) (rendered : List String)
    (primary_keys : List String) (order_by : Option (List String))
    (order_by_direction : String) : String :=
  let cmd := "CREATE TABLE " ++ table ++ "(" ++ joinComma rendered ++
    ", PRIMARY KEY (" ++ joinComma primary_keys ++ "))"
  match order_by with
  | none => cmd
  | some l =>
    if l.isEmpty then cmd
    else cmd ++ "WITH CLUSTERING ORDER BY (" ++ joinComma l ++ " " ++
      order_by_direction ++ ");"

/-- `create_table` (lines 114-131): build the statement and execute it with
the `-k <keyspace>` binding, raising on a non-zero return code. -/
def create_table (keyspace table : String) (columns : List Column)
    (primary_keys : List String) (order_by : Option (List String))
    (order_by_direction host : String) (port : Int) (cql_version : String)
    (store : Store) : Except PyError Unit × List (List String) :=
  match renderColumns columns with
  | none => (.error (.keyErr "column missing name or type"), [])
  | some rendered =>
    let cmd := buildCreateTableCmd table rendered primary_keys order_by
      order_by_direction
    let argv := ["sudo", "cqlsh", host, toString port, "--cqlversion",
                 cql_version, "-k", keyspace, "-e", cmd]
    let r := store argv
    (if r.returncode ≠ 0 then .error (.exc (badReturncode r.returncode r.err))
     else .ok (), [argv])

/-- `drop_table` (lines 134-142): `DROP TABLE <name>;` under the
`-k <keyspace>` binding, raising on a non-zero return code. -/
def drop_table (keyspace table host : String) (port : Int)
    (cql_version : String) (store : Store) :
    Except PyError Unit × List (List String) :=
  let cmd := "DROP TABLE " ++ table ++ ";"
  let argv := ["sudo", "cqlsh", host, toString port, "--cqlversion",
               cql_version, "-k", keyspace, "-e", cmd]
  let r := store argv
  (if r.returncode ≠ 0 then .error (.exc (badReturncode r.returncode r.err))
   else .ok (), [argv])

/-- `validate_columns` (lines 145-153): walk every column, collecting one
message per missing key — the walk is exhaustive, never fail-fast.  An
error is the fixed message paired with the offending column (the Python
message interpolates the column dictionary into the text). -/
def validate_columns : List Column → List (String × Column)
  | [] => []
  | col :: rest =>
    (if col.name = none
     then [("'name' missing from current column", col)] else []) ++
    (if col.type = none
     then [("'type' missing from current column", col)] else []) ++
    validate_columns rest

/-- Parameters of the table module, with the defaults of its
`argument_spec` (lines 156-171). -/
structure TableParams where
  name : String
  keyspace : String
  columns : List Column
  primary_keys : List String
  order_by : Option (List String) := none
  order_by_direction : String := "ASC"
  host : String := "127.0.0.1"
  port : Int := 9042
  cql_version : String := "3.4.4"
  state : String := "present"
deriving DecidableEq, Repr

/-- `cassandra_table.main` (lines 155-216) after `AnsibleModule` parameter
parsing (a `state` outside the declared choices is rejected by
`AnsibleModule` itself, modelled by the leading test): validate the columns
before any subprocess call and fail with the full error list if any column
is malformed; otherwise query existence and create/drop as the state and
the observation dictate. -/
def tableMain (p : TableParams) (store : Store) :
    ModuleResult × List (List String) :=
  if p.state ≠ "present" ∧ p.state ≠ "absent" then
    (.failJson "value of state must be one of: present, absent", [])
  else if (validate_columns p.columns).length > 0 then
    (.failJsonCols (validate_columns p.columns), [])
  else
    match table_already_exists p.keyspace p.name p.host p.port
        p.cql_version store with
    | (.error e, t0) => (.failJson e.str, t0)
    | (.ok exists_, t0) =>
      if p.state = "present" then
        if exists_ then (.exitJson false, t0)
        else
          match create_table p.keyspace p.name p.columns p.primary_keys
              p.order_by p.order_by_direction p.host p.port
              p.cql_version store with
          | (.error e, t1) =>
            (.failJson ("Error creating table: " ++ e.str), t0 ++ t1)
          | (.ok _, t1) => (.exitJson true, t0 ++ t1)
      else
        if exists_ then
          match drop_table p.keyspace p.name p.host p.port
              p.cql_version store with
          | (.error e, t1) =>
            (.failJson ("Error deleting table: " ++ e.str), t0 ++ t1)
          | (.ok _, t1) => (.exitJson true, t0 ++ t1)
        else (.exitJson false, t0)

/-- The statement texts a trace handed to the store: the final entry of
each argv vector (the text after `-e`). -/
def sentStatements (trace : List (List String)) : List String :=
  trace.filterMap List.getLast?

/-- A store for a keyspace with no tables: `Describe tables;` prints
nothing, and every statement exits with return code 0. -/
def storeEmptyPluto : Store := fun _ =>
  { out := "", err := "", returncode := 0 }

/-- The literal example table spec of the specification: table `events` in
keyspace `pluto` with three columns, a two-column primary key, and a
descending clustering order on `time`. -/
def eventsSpec : TableParams :=
  { name := "events", keyspace := "pluto",
    columns := [{ name := some "datastream", type := some "text" },
                { name := some "time", type := some "timestamp" },
                { name := some "value", type := some "float" }],
    primary_keys := ["datastream", "time"],
    order_by := some ["time"], order_by_direction := "DESC" }

/-- C2 counterexample: reconciling `eventsSpec` against an empty keyspace
sends the describe query and then a CREATE statement in which `cmd +=`
(line 122) glues `WITH CLUSTERING ORDER BY` directly onto the closing
parentheses with no separating space — so the claimed statement, which has
a space before `WITH`, is never sent to the store. -/
theorem table_create_literal_counterexample :
    sentStatements (tableMain eventsSpec storeEmptyPluto).2 =
      ["Describe tables;",
       "CREATE TABLE events(datastream text, time timestamp, value float, PRIMARY KEY (datastream, time))WITH CLUSTERING ORDER BY (time DESC);"] ∧
    (tableMain eventsSpec storeEmptyPluto).1 = .exitJson true ∧
    (∀ stmt ∈ sentStatements (tableMain eventsSpec storeEmptyPluto).2,
      stmt ≠ "CREATE TABLE events(datastream text, time timestamp, value float, PRIMARY KEY (datastream, time)) WITH CLUSTERING ORDER BY (time DESC);") :=
  ⟨rfl, rfl, by decide⟩

/-- C2 amended: against the empty keyspace, the example spec results in
`changed=true` and the statement sent to the store is exactly
`CREATE TABLE events(datastream text, time timestamp, value float, PRIMARY
KEY (datastream, time))WITH CLUSTERING ORDER BY (time DESC);` — identical
to the claimed text except that no space separates `))` from `WITH`. -/
theorem table_create_literal_amended :
    (tableMain eventsSpec storeEmptyPluto).1 = .exitJson true ∧
    sentStatements (tableMain eventsSpec storeEmptyPluto).2 =
      ["Describe tables;",
       "CREATE TABLE events(datastream text, time timestamp, value float, PRIMARY KEY (datastream, time))WITH CLUSTERING ORDER BY (time DESC);"] :=
  ⟨rfl, rfl⟩

/-- A column that fails validation contributes its `name` message to
`validate_columns`, whatever the rest of the list holds. -/
theorem mem_validate_columns_of_name_none {cols : List Column} {c : Column}
    (hmem : c ∈ cols) (hname : c.name = none) :
    ("'name' missing from current column", c) ∈ validate_columns cols := by
  induction cols with
  | nil => cases hmem
  | cons d rest ih =>
    rcases List.mem_cons.mp hmem with h | h
    · subst h
      unfold validate_columns
      rw [if_pos hname]
      simp
    · unfold validate_columns
      simp [List.mem_append, ih h]

/-- A column that fails validation contributes its `type` message to
`validate_columns`, whatever the rest of the list holds. -/
theorem mem_validate_columns_of_type_none {cols : List Column} {c : Column}
    (hmem : c ∈ cols) (htype : c.type = none) :
    ("'type' missing from current column", c) ∈ validate_columns cols := by
  induction cols with
  | nil => cases hmem
  | cons d rest ih =>
    rcases List.mem_cons.mp hmem with h | h
    · subst h
      unfold validate_columns
      rw [if_pos htype]
      simp
    · unfold validate_columns
      simp [List.mem_append, ih h]

/-- C6: for every table parameter record whose column list is a pair in
which the first column lacks `name` and the second lacks `type`, and for
every store, `main` fails with the validation error list — which enumerates
both offending columns — and the trace is empty: no call reaches the store
before or after the failure. -/
theorem table_validation_exhaustive (p : TableParams) (store : Store)
    (c1 c2 : Column) (hcols : p.columns = [c1, c2])
    (h1 : c1.name = none) (h2 : c2.type = none)
    (hstate : p.state = "present" ∨ p.state = "absent") :
    tableMain p store = (.failJsonCols (validate_columns p.columns), []) ∧
    ("'name' missing from current column", c1) ∈ validate_columns p.columns ∧
    ("'type' missing from current column", c2) ∈ validate_columns p.columns := by
  have hm1 : ("'name' missing from current column", c1) ∈
      validate_columns p.columns :=
    mem_validate_columns_of_name_none (by rw [hcols]; simp) h1
  have hm2 : ("'type' missing from current column", c2) ∈
      validate_columns p.columns :=
    mem_validate_columns_of_type_none (by rw [hcols]; simp) h2
  have hlen : (validate_columns p.columns).length > 0 :=
    List.length_pos.mpr (List.ne_nil_of_mem hm1)
  refine ⟨?_, hm1, hm2⟩
  unfold tableMain
  rcases hstate with h | h <;> rw [h] <;> rw [if_neg (by decide)] <;>
    rw [if_pos hlen]

/-- The concrete malformed spec for the validation witness: the first
column lacks `name`, the second lacks `type`. -/
def badColumnsSpec : TableParams :=
  { name := "events", keyspace := "pluto",
    columns := [{ name := none, type := some "text" },
                { name := some "time", type := none }],
    primary_keys := ["datastream"] }

/-- Witness for `table_validation_exhaustive` at `badColumnsSpec`. -/
theorem table_validation_exhaustive_witness :
    tableMain badColumnsSpec storeEmptyPluto =
      (.failJsonCols (validate_columns badColumnsSpec.columns), []) ∧
    ("'name' missing from current column",
      { name := none, type := some "text" }) ∈
      validate_columns badColumnsSpec.columns ∧
    ("'type' missing from current column",
      { name := some "time", type := none }) ∈
      validate_columns badColumnsSpec.columns :=
  table_validation_exhaustive badColumnsSpec storeEmptyPluto
    { name := none, type := some "text" } { name := some "time", type := none }
    rfl rfl rfl (Or.inl rfl)

/-- The last character of a string as a list operation (kernel-computable
stand-in for `endsWith`). -/
def lastChar (s : String) : Option Char := s.data.getLast?

/-- Appending the two closing parentheses leaves `)` (character 41) as the
final character of any statement. -/
theorem lastChar_append_two_rparens (x : String) :
    lastChar (x ++ "))") = some (Char.ofNat 41) := by
  unfold lastChar
  rw [String.data_append]
  rw [List.getLast?_append_of_ne_nil _ (by decide)]
  rfl

/-- C10: whenever `order_by` is unset (`None`) or the empty list, the
statement built on the create path is exactly the base
`CREATE TABLE <name>(..., PRIMARY KEY (...))` text: its final character is
the closing parenthesis `)` of the PRIMARY KEY clause — in particular not a
semicolon (character 59) — and the `WITH CLUSTERING ORDER BY (...);` suffix
carrying the sole semicolon is appended exactly when `order_by` is a
non-empty list. -/
theorem create_table_cmd_no_order_by (table : String)
    (rendered primary_keys : List String) (ob : Option (List String))
    (dir : String) (h : ob = none ∨ ob = some []) :
    buildCreateTableCmd table rendered primary_keys ob dir =
      "CREATE TABLE " ++ table ++ "(" ++ joinComma rendered ++
        ", PRIMARY KEY (" ++ joinComma primary_keys ++ "))" ∧
    lastChar (buildCreateTableCmd table rendered primary_keys ob dir) =
      some (Char.ofNat 41) ∧
    lastChar (buildCreateTableCmd table rendered primary_keys ob dir) ≠
      some (Char.ofNat 59) ∧
    (∀ l, l ≠ [] →
      buildCreateTableCmd table rendered primary_keys (some l) dir =
        "CREATE TABLE " ++ table ++ "(" ++ joinComma rendered ++
          ", PRIMARY KEY (" ++ joinComma primary_keys ++ "))" ++
          "WITH CLUSTERING ORDER BY (" ++ joinComma l ++ " " ++ dir ++ ");") := by
  have hbase : buildCreateTableCmd table rendered primary_keys ob dir =
      "CREATE TABLE " ++ table ++ "(" ++ joinComma rendered ++
        ", PRIMARY KEY (" ++ joinComma primary_keys ++ "))" := by
    rcases h with h | h <;> subst h <;> rfl
  have hlast : lastChar (buildCreateTableCmd table rendered primary_keys ob dir) =
      some (Char.ofNat 41) := by
    rw [hbase]
    exact lastChar_append_two_rparens _
  refine ⟨hbase, hlast, ?_, ?_⟩
  · rw [hlast]
    decide
  · intro l hl
    cases l with
    | nil => exact absurd rfl hl
    | cons a as => rfl

/-- Witness for `create_table_cmd_no_order_by` at the `events` column list
with `order_by` unset. -/
theorem create_table_cmd_no_order_by_witness :
    buildCreateTableCmd "events"
        ["datastream text", "time timestamp", "value float"]
        ["datastream", "time"] none "ASC" =
      "CREATE TABLE " ++ "events" ++ "(" ++
        joinComma ["datastream text", "time timestamp", "value float"] ++
        ", PRIMARY KEY (" ++ joinComma ["datastream", "time"] ++ "))" ∧
    lastChar (buildCreateTableCmd "events"
        ["datastream text", "time timestamp", "value float"]
        ["datastream", "time"] none "ASC") = some (Char.ofNat 41) ∧
    lastChar (buildCreateTableCmd "events"
        ["datastream text", "time timestamp", "value float"]
        ["datastream", "time"] none "ASC") ≠ some (Char.ofNat 59) ∧
    (∀ l, l ≠ [] →
      buildCreateTableCmd "events"
          ["datastream text", "time timestamp", "value float"]
          ["datastream", "time"] (some l) "ASC" =
        "CREATE TABLE " ++ "events" ++ "(" ++
          joinComma ["datastream text", "time timestamp", "value float"] ++
          ", PRIMARY KEY (" ++ joinComma ["datastream", "time"] ++ "))" ++
          "WITH CLUSTERING ORDER BY (" ++ joinComma l ++ " " ++ "ASC" ++ ");") :=
  create_table_cmd_no_order_by "events"
    ["datastream text", "time timestamp", "value float"]
    ["datastream", "time"] none "ASC" (Or.inl rfl)
